import Mathlib

/-!
Verification development for the messaging orchestration layer
(`RabbitService` and its data model) of the turbocookedrabbit repository.

The Go source is shallowly embedded: pure data types become Lean
structures, the publish path becomes a state-passing function over the
relevant service state, the `uint64` letter counter is a `Nat` reduced
modulo `2 ^ 64` where the source increments it, and fallible operations
return `Except`/explicit outcome types.  Collaborators whose code is not
part of this repository's files (the payload pipeline, the KDF, the
connection pool) are passed in as function parameters or modelled from
the spec, as marked on each definition.
-/

/-- The modulus of Go's `uint64` arithmetic (`atomic.AddUint64` wraps). -/
def UINT64_MOD : Nat := 2 ^ 64

/-- Envelope contains all the address details of where a letter is going
(from `tcr`'s data model; `DeliveryMode` is the AMQP delivery mode byte:
non-persistent = 1, persistent = 2). -/
structure Envelope where
  Exchange : String
  RoutingKey : String
  ContentType : String
  Mandatory : Bool
  Immediate : Bool
  DeliveryMode : Nat
  deriving Repr, DecidableEq

/-- Letter: one unit of outbound publish work (`LetterID`, body bytes and
an envelope).  Bytes are modelled as `List Nat`. -/
structure Letter where
  LetterID : Nat
  Body : List Nat
  Envelope : Envelope
  deriving Repr, DecidableEq

/-- PublishReceipt: the asynchronous outcome report for one publish
attempt (`src/unnamed/part_000`).  `Error` is modelled as the error
message text. -/
structure PublishReceipt where
  LetterID : Nat
  FailedLetter : Option Letter
  Success : Bool
  Error : Option String
  deriving Repr, DecidableEq

/-- Modelled from the spec: opaque compression configuration, forwarded
untouched by the orchestrator to the payload pipeline (the pipeline and
its configuration types are not among this repository's files). -/
structure CompressionConfig where
  Enabled : Bool
  deriving Repr, DecidableEq

/-- Modelled from the spec: encryption configuration as used by
`NewRabbitService` (enabled flag, the Argon KDF parameters it forwards,
and the derived `Hashkey` it stores); the type's own file is not among
this repository's files. -/
structure EncryptionConfig where
  Enabled : Bool
  TimeConsideration : Nat
  MemoryMultiplier : Nat
  Threads : Nat
  Hashkey : List Nat
  deriving Repr, DecidableEq

/-- The slice of `RabbitSeasoning` (the configuration struct) that the
orchestrator's publish path and construction touch. -/
structure RabbitSeasoning where
  CompressionConfig : CompressionConfig
  EncryptionConfig : EncryptionConfig
  deriving Repr, DecidableEq

/-- The slice of the `RabbitService` struct's state that the publish path
reads and writes: the configuration, the shared `letterCount` counter and
the `encryptionConfigured` flag. -/
structure RabbitServiceState where
  Config : RabbitSeasoning
  letterCount : Nat
  encryptionConfigured : Bool
  deriving Repr, DecidableEq

/-- The synchronous result of one `Publish`/`PublishWithConfirmation`
call: the validation error return, the payload-pipeline error return, or
the `Letter` handed to the Publisher (with, for the confirmation variant,
the fixed wait budget in milliseconds). -/
inductive PublishOutcome where
  | validationError (msg : String)
  | pipelineError (msg : String)
  | published (letter : Letter)
  | publishedWithConfirmation (letter : Letter) (timeoutMillis : Nat)
  deriving Repr, DecidableEq

/-- `RabbitService.Publish` (rabbitservice.go).  The payload pipeline
collaborators `CreatePayload` and `CreateWrappedPayload` are passed in as
functions (their code is outside this repository's files); `input` is the
`interface{}` argument, `none` standing for Go's `nil`.  Returns the
updated service state and the call's outcome. -/
def Publish {α : Type} (CreatePayload : α → CompressionConfig → EncryptionConfig → Except String (List Nat))
    (CreateWrappedPayload : α → Nat → String → CompressionConfig → EncryptionConfig → Except String (List Nat))
    (rs : RabbitServiceState) (input : Option α) (exchangeName routingKey : String)
    (wrapPayload : Bool) (metadata : String) : RabbitServiceState × PublishOutcome :=
  match input with
  | none => (rs, .validationError "can't have a nil input or an empty exchangename with empty routing key")
  | some value =>
    if exchangeName = "" ∧ routingKey = "" then
      (rs, .validationError "can't have a nil input or an empty exchangename with empty routing key")
    else
      let currentCount := rs.letterCount
      let rs' := { rs with letterCount := (rs.letterCount + 1) % UINT64_MOD }
      let data : Except String (List Nat) :=
        if wrapPayload then
          CreateWrappedPayload value currentCount metadata rs.Config.CompressionConfig rs.Config.EncryptionConfig
        else
          CreatePayload value rs.Config.CompressionConfig rs.Config.EncryptionConfig
      match data with
      | .error e => (rs', .pipelineError e)
      | .ok bytes =>
        (rs', .published
          { LetterID := currentCount
            Body := bytes
            Envelope :=
              { Exchange := exchangeName
                RoutingKey := routingKey
                ContentType := "application/json"
                Mandatory := false
                Immediate := false
                DeliveryMode := 2 } })

/-- `RabbitService.PublishWithConfirmation` (rabbitservice.go): same
validation, counter reservation and payload construction as `Publish`,
but the letter is handed to the Publisher together with the fixed 300 ms
confirmation wait budget. -/
def PublishWithConfirmation {α : Type} (CreatePayload : α → CompressionConfig → EncryptionConfig → Except String (List Nat))
    (CreateWrappedPayload : α → Nat → String → CompressionConfig → EncryptionConfig → Except String (List Nat))
    (rs : RabbitServiceState) (input : Option α) (exchangeName routingKey : String)
    (wrapPayload : Bool) (metadata : String) : RabbitServiceState × PublishOutcome :=
  match input with
  | none => (rs, .validationError "can't have a nil body or an empty exchangename with empty routing key")
  | some value =>
    if exchangeName = "" ∧ routingKey = "" then
      (rs, .validationError "can't have a nil body or an empty exchangename with empty routing key")
    else
      let currentCount := rs.letterCount
      let rs' := { rs with letterCount := (rs.letterCount + 1) % UINT64_MOD }
      let data : Except String (List Nat) :=
        if wrapPayload then
          CreateWrappedPayload value currentCount metadata rs.Config.CompressionConfig rs.Config.EncryptionConfig
        else
          CreatePayload value rs.Config.CompressionConfig rs.Config.EncryptionConfig
      match data with
      | .error e => (rs', .pipelineError e)
      | .ok bytes =>
        (rs', .publishedWithConfirmation
          { LetterID := currentCount
            Body := bytes
            Envelope :=
              { Exchange := exchangeName
                RoutingKey := routingKey
                ContentType := "application/json"
                Mandatory := false
                Immediate := false
                DeliveryMode := 2 } }
          300)

/-- The effect of one pass of a receipt-processing loop over the receipts
drained from the Publisher's receipt source: the receipts handed to the
custom handler (in order), the error messages pushed to the central
error stream, and the letters requeued via `Publisher.QueueLetter`. -/
structure ReceiptDrainEffect where
  handled : List PublishReceipt
  centralErrors : List String
  requeued : List Letter
  deriving Repr, DecidableEq

/-- The body of `RabbitService.processPublishReceipts`'s receive case
(rabbitservice.go lines 315-339): the default per-receipt retry/report
policy.  Returns the central-stream error messages pushed and the
letters requeued for this one receipt. -/
def processReceipt (receipt : PublishReceipt) : List String × List Letter :=
  if !receipt.Success then
    match receipt.FailedLetter with
    | some failedLetter =>
      (["failed to publish letter " ++ toString receipt.LetterID ++ "... retrying"],
       [failedLetter])
    | none =>
      (["failed to publish a letter " ++ toString receipt.LetterID ++ " and unable to retry as a copy of the letter was not received"],
       [])
  else ([], [])

/-- One drain pass of the default receipt loop
(`RabbitService.processPublishReceipts`) over a finite list of receipts
taken from the Publisher's receipt source: no custom handler is invoked;
each receipt goes through the default policy `processReceipt`. -/
def processPublishReceiptsDrain (receipts : List PublishReceipt) : ReceiptDrainEffect :=
  match receipts with
  | [] => { handled := [], centralErrors := [], requeued := [] }
  | receipt :: rest =>
    let step := processReceipt receipt
    let tail := processPublishReceiptsDrain rest
    { handled := tail.handled
      centralErrors := step.1 ++ tail.centralErrors
      requeued := step.2 ++ tail.requeued }

/-- One drain pass of `RabbitService.invokeProcessPublishReceipts` over a
finite list of receipts: every receipt drained from the Publisher's
receipt source is passed (verbatim, in order) to the custom handler, and
nothing else happens for it. -/
def invokeProcessPublishReceiptsDrain (receipts : List PublishReceipt) : ReceiptDrainEffect :=
  match receipts with
  | [] => { handled := [], centralErrors := [], requeued := [] }
  | receipt :: rest =>
    let tail := invokeProcessPublishReceiptsDrain rest
    { handled := receipt :: tail.handled
      centralErrors := tail.centralErrors
      requeued := tail.requeued }

/-- The receipt-loop dispatch of `NewRabbitService` (rabbitservice.go
lines 87-91): when a custom `processPublishReceipts` handler is supplied
(non-nil) the orchestrator runs `invokeProcessPublishReceipts` with it,
otherwise it runs the default `processPublishReceipts` loop. -/
def dispatchReceiptLoop (customHandlerSupplied : Bool) (receipts : List PublishReceipt) : ReceiptDrainEffect :=
  if customHandlerSupplied then invokeProcessPublishReceiptsDrain receipts
  else processPublishReceiptsDrain receipts

/-- A record of one call to the key-derivation collaborator
`GetHashWithArgon` (its code is outside this repository's files): the
arguments `NewRabbitService` passes it. -/
structure KDFCall where
  passphrase : String
  salt : String
  timeConsideration : Nat
  memoryMultiplier : Nat
  threads : Nat
  keyLength : Nat
  deriving Repr, DecidableEq

/-- The encryption-setup step of `NewRabbitService` (rabbitservice.go
lines 69-79).  The KDF itself is a collaborator passed in as
`GetHashWithArgon`; the result is the updated encryption configuration,
the `encryptionConfigured` flag, and the list of KDF calls performed. -/
def setupEncryption (GetHashWithArgon : String → String → Nat → Nat → Nat → Nat → List Nat)
    (config : RabbitSeasoning) (passphrase salt : String) :
    RabbitSeasoning × Bool × List KDFCall :=
  if config.EncryptionConfig.Enabled ∧ passphrase.length > 0 ∧ salt.length > 0 then
    ({ config with EncryptionConfig :=
        { config.EncryptionConfig with Hashkey :=
            (GetHashWithArgon passphrase salt
              config.EncryptionConfig.TimeConsideration
              config.EncryptionConfig.MemoryMultiplier
              config.EncryptionConfig.Threads 32) } },
     true,
     [{ passphrase := passphrase
        salt := salt
        timeConsideration := config.EncryptionConfig.TimeConsideration
        memoryMultiplier := config.EncryptionConfig.MemoryMultiplier
        threads := config.EncryptionConfig.Threads
        keyLength := 32 }])
  else
    (config, false, [])

/-- A registered consumer as `Shutdown` sees it: its name and the result
of its `StopConsuming(true, true)` call (`some msg` standing for a
returned error, `none` for success).  The Consumer's own code is a
collaborator outside this repository's files. -/
structure ModelConsumer where
  name : String
  stopResult : Option String
  deriving Repr, DecidableEq

/-- The observable steps `RabbitService.Shutdown` performs, in order. -/
inductive ShutdownEvent where
  | stopAutoPublish
  | sleepSeconds (seconds : Nat)
  | sendShutdownSignal
  | stopConsuming (name : String) (immediate flush : Bool)
  | pushCentralErr (msg : String)
  | connectionPoolShutdown
  deriving Repr, DecidableEq

/-- The per-consumer body of `Shutdown`'s stop loop: call
`StopConsuming(true, true)` and, when it returns an error, push that
error to the central stream and continue with the next consumer. -/
def stopConsumerEvents (consumer : ModelConsumer) : List ShutdownEvent :=
  ShutdownEvent.stopConsuming consumer.name true true ::
    (match consumer.stopResult with
     | some e => [ShutdownEvent.pushCentralErr e]
     | none => [])

/-- `RabbitService.Shutdown` (rabbitservice.go lines 219-237) as its
ordered trace of observable steps, over the registered consumers. -/
def Shutdown (consumers : List ModelConsumer) (stopConsumers : Bool) : List ShutdownEvent :=
  [ShutdownEvent.stopAutoPublish, ShutdownEvent.sleepSeconds 1,
   ShutdownEvent.sendShutdownSignal, ShutdownEvent.sleepSeconds 1]
  ++ (if stopConsumers then consumers.flatMap stopConsumerEvents else [])
  ++ [ShutdownEvent.connectionPoolShutdown]

/-- The slice of `ReceivedMessage` (`src/unnamed/part_000`) these claims
touch: the ackable flag, the private delivery tag and the private
origin-channel reference.  The channel itself is an external AMQP
collaborator; we model holding a reference to it as an `Option Nat`
channel identifier (`none` standing for Go's `nil`). -/
structure ReceivedMessage where
  IsAckable : Bool
  Body : List Nat
  deliveryTag : Nat
  amqpChan : Option Nat
  deriving Repr, DecidableEq

/-- The calls an acknowledgement operation can forward to the origin
channel (`amqpChan.Ack/Nack/Reject` with the message's delivery tag). -/
inductive ChannelCall where
  | ack (chan : Nat) (tag : Nat) (multiple : Bool)
  | nack (chan : Nat) (tag : Nat) (multiple requeue : Bool)
  | reject (chan : Nat) (tag : Nat) (requeue : Bool)
  deriving Repr, DecidableEq

/-- The result of `Acknowledge`/`Nack`/`Reject`: either an error returned
locally, without contacting the origin channel, or the call forwarded to
the origin channel (whose own result is the broker's business). -/
inductive AckResult where
  | localError (msg : String)
  | forwarded (call : ChannelCall)
  deriving Repr, DecidableEq

/-- `ReceivedMessage.Acknowledge` (`src/unnamed/part_000` lines 82-92).
The operation reads the message's fields only and records nothing, so a
repeated invocation on the same message evaluates identically. -/
def Acknowledge (msg : ReceivedMessage) : AckResult :=
  if !msg.IsAckable then
    .localError "can't acknowledge, not an ackable message"
  else
    match msg.amqpChan with
    | none => .localError "can't acknowledge, internal channel is nil"
    | some chan => .forwarded (.ack chan msg.deliveryTag false)

/-- `ReceivedMessage.Nack` (`src/unnamed/part_000` lines 96-106). -/
def Nack (msg : ReceivedMessage) (requeue : Bool) : AckResult :=
  if !msg.IsAckable then
    .localError "can't nack, not an ackable message"
  else
    match msg.amqpChan with
    | none => .localError "can't nack, internal channel is nil"
    | some chan => .forwarded (.nack chan msg.deliveryTag false requeue)

/-- `ReceivedMessage.Reject` (`src/unnamed/part_000` lines 110-120). -/
def Reject (msg : ReceivedMessage) (requeue : Bool) : AckResult :=
  if !msg.IsAckable then
    .localError "can't reject, not an ackable message"
  else
    match msg.amqpChan with
    | none => .localError "can't reject, internal channel is nil"
    | some chan => .forwarded (.reject chan msg.deliveryTag requeue)

/-!
Interleaving model of the LetterID reservation.  The source reserves a
LetterID with two separate atomic operations,

  currentCount := atomic.LoadUint64(&rs.letterCount)
  atomic.AddUint64(&rs.letterCount, 1)

so a concurrent execution is a sequence of `load` and `add` steps, each
individually atomic, with each caller performing its `load` before its
`add`.  The model below runs an arbitrary such schedule over the shared
counter and records the value each caller loaded — that value is the
LetterID the caller's Letter receives.
-/

/-- One caller's private reservation state: the counter value its
`atomic.LoadUint64` returned (its assigned LetterID), if performed yet,
and whether its `atomic.AddUint64` has been performed yet. -/
structure CallerState where
  loadedID : Option Nat
  added : Bool
  deriving Repr, DecidableEq

/-- The shared state of a reservation execution: the `letterCount`
counter and each caller's private state. -/
structure ReserveState where
  counter : Nat
  callers : List CallerState
  deriving Repr, DecidableEq

/-- One atomic step of some caller `t`: its `load` (reads the shared
counter into `currentCount`) or its `add` (increments the shared counter
by one, modulo `2 ^ 64`). -/
inductive ReserveOp where
  | load (t : Nat)
  | add (t : Nat)
  deriving Repr, DecidableEq

/-- Execute one atomic step of the reservation model. -/
def reserveStep (s : ReserveState) (op : ReserveOp) : ReserveState :=
  match op with
  | .load t =>
    match s.callers.get? t with
    | some c => { s with callers := s.callers.set t { c with loadedID := some s.counter } }
    | none => s
  | .add t =>
    match s.callers.get? t with
    | some c =>
      { counter := (s.counter + 1) % UINT64_MOD
        callers := s.callers.set t { c with added := true } }
    | none => s

/-- Execute a whole schedule of atomic steps. -/
def reserveRun (s : ReserveState) (schedule : List ReserveOp) : ReserveState :=
  match schedule with
  | [] => s
  | op :: rest => reserveRun (reserveStep s op) rest

/-- The initial reservation state for `n` concurrent callers with the
shared counter at `c`. -/
def reserveInit (n : Nat) (c : Nat) : ReserveState :=
  { counter := c, callers := List.replicate n { loadedID := none, added := false } }

/-- Whether a schedule is a legal concurrent execution of `n` callers
each running the reservation code once: every caller `t < n` performs
exactly one `load t` and exactly one `add t`, with its `load` strictly
before its `add` (program order), and no step names a caller `≥ n`. -/
def validSchedule (n : Nat) (schedule : List ReserveOp) : Bool :=
  (List.range n).all (fun t =>
    (schedule.count (ReserveOp.load t) == 1) &&
    (schedule.count (ReserveOp.add t) == 1) &&
    (schedule.indexOf (ReserveOp.load t) < schedule.indexOf (ReserveOp.add t))) &&
  schedule.all (fun op => match op with | .load t => t < n | .add t => t < n)

/-- The LetterIDs a finished execution assigned: caller `t`'s Letter gets
`loadedID t`. -/
def assignedIDs (s : ReserveState) : List (Option Nat) :=
  s.callers.map (fun c => c.loadedID)

/-- Whether a shutdown event is a `StopConsuming` call on a consumer. -/
def isStopConsumingEvent : ShutdownEvent → Bool
  | .stopConsuming _ _ _ => true
  | _ => false

/-- The arguments of one caller-invoked publish call, tagged with which
entry point (`Publish` or `PublishWithConfirmation`) it goes through. -/
structure PublishCall (α : Type) where
  withConfirmation : Bool
  input : Option α
  exchangeName : String
  routingKey : String
  wrapPayload : Bool
  metadata : String

/-- Run one publish call through its entry point. -/
def publishStep {α : Type} (CreatePayload : α → CompressionConfig → EncryptionConfig → Except String (List Nat))
    (CreateWrappedPayload : α → Nat → String → CompressionConfig → EncryptionConfig → Except String (List Nat))
    (rs : RabbitServiceState) (call : PublishCall α) : RabbitServiceState × PublishOutcome :=
  if call.withConfirmation then
    PublishWithConfirmation CreatePayload CreateWrappedPayload rs call.input
      call.exchangeName call.routingKey call.wrapPayload call.metadata
  else
    Publish CreatePayload CreateWrappedPayload rs call.input
      call.exchangeName call.routingKey call.wrapPayload call.metadata

/-- Run a sequence of publish calls one after the other (sequential,
non-overlapping executions of the publish path), collecting each call's
outcome. -/
def publishRun {α : Type} (CreatePayload : α → CompressionConfig → EncryptionConfig → Except String (List Nat))
    (CreateWrappedPayload : α → Nat → String → CompressionConfig → EncryptionConfig → Except String (List Nat))
    (rs : RabbitServiceState) (calls : List (PublishCall α)) : RabbitServiceState × List PublishOutcome :=
  match calls with
  | [] => (rs, [])
  | call :: rest =>
    let step := publishStep CreatePayload CreateWrappedPayload rs call
    let tail := publishRun CreatePayload CreateWrappedPayload step.1 rest
    (tail.1, step.2 :: tail.2)

/-- The Letter an outcome handed to the Publisher, if any. -/
def outcomeLetter (outcome : PublishOutcome) : Option Letter :=
  match outcome with
  | .published letter => some letter
  | .publishedWithConfirmation letter _ => some letter
  | _ => none

/-- A concrete configuration used to evaluate the model at concrete
inputs. -/
def sampleSeasoning : RabbitSeasoning :=
  { CompressionConfig := { Enabled := false }
    EncryptionConfig :=
      { Enabled := false, TimeConsideration := 1, MemoryMultiplier := 1,
        Threads := 1, Hashkey := [] } }

/-- A concrete service state whose letter counter holds 5. -/
def sampleState : RabbitServiceState :=
  { Config := sampleSeasoning, letterCount := 5, encryptionConfigured := false }

/-- A concrete payload pipeline that fails on input 0 and succeeds
otherwise. -/
def samplePayload : Nat → CompressionConfig → EncryptionConfig → Except String (List Nat) :=
  fun n _ _ => if n = 0 then Except.error "serialization failed" else Except.ok [1, 2]

/-- A concrete wrapped-payload pipeline that always succeeds. -/
def sampleWrappedPayload : Nat → Nat → String → CompressionConfig → EncryptionConfig → Except String (List Nat) :=
  fun _ _ _ _ _ => Except.ok [3]

/-- A concrete publish call whose payload pipeline run fails. -/
def sampleFailCall : PublishCall Nat :=
  { withConfirmation := false, input := some 0, exchangeName := "orders",
    routingKey := "new", wrapPayload := false, metadata := "" }

/-- A concrete follow-up run of one successful publish call. -/
def sampleRest : List (PublishCall Nat) :=
  [{ withConfirmation := false, input := some 1, exchangeName := "orders",
     routingKey := "new", wrapPayload := false, metadata := "" }]

/-- A string is non-empty exactly when its length is positive. -/
lemma length_pos_iff_ne_empty (s : String) : s.length > 0 ↔ s ≠ "" := by
  rw [String.length]
  cases s with
  | mk data => simp [List.length_pos, String.ext_iff]

/-- Case analysis of one `Publish` call: either validation fails (state
unchanged, a validation error returned) or the counter advances by one
(modulo `2 ^ 64`) and any Letter handed to the Publisher carries the
pre-call counter value as its `LetterID`. -/
lemma Publish_step_cases {α : Type}
    (CreatePayload : α → CompressionConfig → EncryptionConfig → Except String (List Nat))
    (CreateWrappedPayload : α → Nat → String → CompressionConfig → EncryptionConfig → Except String (List Nat))
    (rs : RabbitServiceState) (input : Option α) (exchangeName routingKey : String)
    (wrapPayload : Bool) (metadata : String) :
    ((Publish CreatePayload CreateWrappedPayload rs input exchangeName routingKey wrapPayload metadata).1 = rs ∧
      ∃ m, (Publish CreatePayload CreateWrappedPayload rs input exchangeName routingKey wrapPayload metadata).2 =
        PublishOutcome.validationError m) ∨
    ((Publish CreatePayload CreateWrappedPayload rs input exchangeName routingKey wrapPayload metadata).1 =
        { rs with letterCount := (rs.letterCount + 1) % UINT64_MOD } ∧
      (∀ m, (Publish CreatePayload CreateWrappedPayload rs input exchangeName routingKey wrapPayload metadata).2 ≠
        PublishOutcome.validationError m) ∧
      ∀ letter, outcomeLetter (Publish CreatePayload CreateWrappedPayload rs input exchangeName routingKey wrapPayload metadata).2 =
        some letter → letter.LetterID = rs.letterCount) := by
  cases input with
  | none => exact Or.inl ⟨rfl, _, rfl⟩
  | some v =>
    by_cases hv : exchangeName = "" ∧ routingKey = ""
    · exact Or.inl ⟨by simp [Publish, hv],
        "can't have a nil input or an empty exchangename with empty routing key",
        by simp [Publish, hv]⟩
    · right
      simp only [Publish, if_neg hv]
      split
      · exact ⟨rfl, by simp, by simp [outcomeLetter]⟩
      · refine ⟨rfl, by simp, ?_⟩
        intro letter h
        simp only [outcomeLetter, Option.some.injEq] at h
        subst h
        rfl

/-- Case analysis of one `PublishWithConfirmation` call, as for
`Publish`. -/
lemma PublishWithConfirmation_step_cases {α : Type}
    (CreatePayload : α → CompressionConfig → EncryptionConfig → Except String (List Nat))
    (CreateWrappedPayload : α → Nat → String → CompressionConfig → EncryptionConfig → Except String (List Nat))
    (rs : RabbitServiceState) (input : Option α) (exchangeName routingKey : String)
    (wrapPayload : Bool) (metadata : String) :
    ((PublishWithConfirmation CreatePayload CreateWrappedPayload rs input exchangeName routingKey wrapPayload metadata).1 = rs ∧
      ∃ m, (PublishWithConfirmation CreatePayload CreateWrappedPayload rs input exchangeName routingKey wrapPayload metadata).2 =
        PublishOutcome.validationError m) ∨
    ((PublishWithConfirmation CreatePayload CreateWrappedPayload rs input exchangeName routingKey wrapPayload metadata).1 =
        { rs with letterCount := (rs.letterCount + 1) % UINT64_MOD } ∧
      (∀ m, (PublishWithConfirmation CreatePayload CreateWrappedPayload rs input exchangeName routingKey wrapPayload metadata).2 ≠
        PublishOutcome.validationError m) ∧
      ∀ letter, outcomeLetter (PublishWithConfirmation CreatePayload CreateWrappedPayload rs input exchangeName routingKey wrapPayload metadata).2 =
        some letter → letter.LetterID = rs.letterCount) := by
  cases input with
  | none => exact Or.inl ⟨rfl, _, rfl⟩
  | some v =>
    by_cases hv : exchangeName = "" ∧ routingKey = ""
    · exact Or.inl ⟨by simp [PublishWithConfirmation, hv],
        "can't have a nil body or an empty exchangename with empty routing key",
        by simp [PublishWithConfirmation, hv]⟩
    · right
      simp only [PublishWithConfirmation, if_neg hv]
      split
      · exact ⟨rfl, by simp, by simp [outcomeLetter]⟩
      · refine ⟨rfl, by simp, ?_⟩
        intro letter h
        simp only [outcomeLetter, Option.some.injEq] at h
        subst h
        rfl

/-- Case analysis of one publish call through either entry point. -/
lemma publishStep_cases {α : Type}
    (CreatePayload : α → CompressionConfig → EncryptionConfig → Except String (List Nat))
    (CreateWrappedPayload : α → Nat → String → CompressionConfig → EncryptionConfig → Except String (List Nat))
    (rs : RabbitServiceState) (call : PublishCall α) :
    ((publishStep CreatePayload CreateWrappedPayload rs call).1 = rs ∧
      ∃ m, (publishStep CreatePayload CreateWrappedPayload rs call).2 = PublishOutcome.validationError m) ∨
    ((publishStep CreatePayload CreateWrappedPayload rs call).1 =
        { rs with letterCount := (rs.letterCount + 1) % UINT64_MOD } ∧
      (∀ m, (publishStep CreatePayload CreateWrappedPayload rs call).2 ≠ PublishOutcome.validationError m) ∧
      ∀ letter, outcomeLetter (publishStep CreatePayload CreateWrappedPayload rs call).2 = some letter →
        letter.LetterID = rs.letterCount) := by
  cases hwc : call.withConfirmation <;> simp only [publishStep, hwc, Bool.false_eq_true, if_false, if_true]
  · exact Publish_step_cases CreatePayload CreateWrappedPayload rs call.input
      call.exchangeName call.routingKey call.wrapPayload call.metadata
  · exact PublishWithConfirmation_step_cases CreatePayload CreateWrappedPayload rs call.input
      call.exchangeName call.routingKey call.wrapPayload call.metadata

/-- In a sequential run that stays below the `uint64` wrap, every Letter
handed to the Publisher carries a `LetterID` at least the starting
counter value. -/
lemma publishRun_letterID_ge {α : Type}
    (CreatePayload : α → CompressionConfig → EncryptionConfig → Except String (List Nat))
    (CreateWrappedPayload : α → Nat → String → CompressionConfig → EncryptionConfig → Except String (List Nat)) :
    ∀ (calls : List (PublishCall α)) (rs : RabbitServiceState),
      rs.letterCount + calls.length < UINT64_MOD →
      ∀ o ∈ (publishRun CreatePayload CreateWrappedPayload rs calls).2,
        ∀ letter, outcomeLetter o = some letter → rs.letterCount ≤ letter.LetterID := by
  intro calls
  induction calls with
  | nil =>
    intro rs _ o ho
    simp [publishRun] at ho
  | cons call rest ih =>
    intro rs h o ho letter hl
    simp only [publishRun, List.mem_cons] at ho
    have hlen : rs.letterCount + rest.length + 1 < UINT64_MOD := by
      simp only [List.length_cons] at h
      omega
    rcases ho with rfl | ho
    · rcases publishStep_cases CreatePayload CreateWrappedPayload rs call with ⟨_, m, h2⟩ | ⟨_, _, hid⟩
      · rw [h2] at hl
        simp [outcomeLetter] at hl
      · exact le_of_eq (hid letter hl).symm
    · rcases publishStep_cases CreatePayload CreateWrappedPayload rs call with ⟨h1, _⟩ | ⟨h1, _, _⟩
      · rw [h1] at ho
        exact ih rs (by omega) o ho letter hl
      · rw [h1] at ho
        have hmod : (rs.letterCount + 1) % UINT64_MOD = rs.letterCount + 1 :=
          Nat.mod_eq_of_lt (by omega)
        have hge := ih { rs with letterCount := (rs.letterCount + 1) % UINT64_MOD }
          (by simp only [hmod]; omega) o ho letter hl
        simp only [hmod] at hge
        omega

/-- C1: the claim says each LetterID reservation is a single atomic
increment of the shared counter and that N concurrent callers always
receive pairwise-distinct, per-caller strictly increasing LetterIDs.  The
source instead performs the reservation as two separate atomic steps — an
`atomic.LoadUint64` and then an `atomic.AddUint64` — so under the legal
interleaving load 0, load 1, add 0, add 1 of two concurrent callers
starting from counter 5, both callers are assigned LetterID 5 (and the
counter ends at 7), while the non-overlapping interleaving load 0, add 0,
load 1, add 1 assigns the distinct, increasing 5 and 6. -/
theorem reservation_race_duplicate_letterIDs :
    validSchedule 2 [ReserveOp.load 0, ReserveOp.load 1, ReserveOp.add 0, ReserveOp.add 1] = true ∧
    assignedIDs (reserveRun (reserveInit 2 5)
      [ReserveOp.load 0, ReserveOp.load 1, ReserveOp.add 0, ReserveOp.add 1]) = [some 5, some 5] ∧
    (reserveRun (reserveInit 2 5)
      [ReserveOp.load 0, ReserveOp.load 1, ReserveOp.add 0, ReserveOp.add 1]).counter = 7 ∧
    validSchedule 2 [ReserveOp.load 0, ReserveOp.add 0, ReserveOp.load 1, ReserveOp.add 1] = true ∧
    assignedIDs (reserveRun (reserveInit 2 5)
      [ReserveOp.load 0, ReserveOp.add 0, ReserveOp.load 1, ReserveOp.add 1]) = [some 5, some 6] := by
  decide

/-- C2: a sequential `Publish` call with non-nil input, exchange
"orders", routing key "new", `wrapPayload = false` and empty metadata,
from a state whose letter counter holds 5, hands the Publisher a Letter
with `LetterID = 5` and Envelope `{Exchange := "orders", RoutingKey :=
"new", ContentType := "application/json", Mandatory := false, Immediate
:= false, DeliveryMode := 2}`, and leaves the counter at 6; moreover both
entry points set those four constant Envelope fields on every Letter they
publish. -/
theorem publish_scenario_letter_and_envelope {α : Type}
    (CreatePayload : α → CompressionConfig → EncryptionConfig → Except String (List Nat))
    (CreateWrappedPayload : α → Nat → String → CompressionConfig → EncryptionConfig → Except String (List Nat))
    (rs : RabbitServiceState) (value : α) (bytes : List Nat)
    (h5 : rs.letterCount = 5)
    (hok : CreatePayload value rs.Config.CompressionConfig rs.Config.EncryptionConfig = Except.ok bytes) :
    (Publish CreatePayload CreateWrappedPayload rs (some value) "orders" "new" false "").2 =
      PublishOutcome.published
        { LetterID := 5, Body := bytes,
          Envelope := { Exchange := "orders", RoutingKey := "new", ContentType := "application/json",
                        Mandatory := false, Immediate := false, DeliveryMode := 2 } } ∧
    (Publish CreatePayload CreateWrappedPayload rs (some value) "orders" "new" false "").1.letterCount = 6 ∧
    (∀ (rs' : RabbitServiceState) (input : Option α) (ex rk : String) (wp : Bool) (md : String) letter,
      outcomeLetter (Publish CreatePayload CreateWrappedPayload rs' input ex rk wp md).2 = some letter →
        letter.Envelope.ContentType = "application/json" ∧ letter.Envelope.Mandatory = false ∧
        letter.Envelope.Immediate = false ∧ letter.Envelope.DeliveryMode = 2) ∧
    (∀ (rs' : RabbitServiceState) (input : Option α) (ex rk : String) (wp : Bool) (md : String) letter,
      outcomeLetter (PublishWithConfirmation CreatePayload CreateWrappedPayload rs' input ex rk wp md).2 = some letter →
        letter.Envelope.ContentType = "application/json" ∧ letter.Envelope.Mandatory = false ∧
        letter.Envelope.Immediate = false ∧ letter.Envelope.DeliveryMode = 2) := by
  refine ⟨?_, ?_, ?_, ?_⟩
  · simp [Publish, hok, h5]
  · simp [Publish, hok, h5, UINT64_MOD]
  · intro rs' input ex rk wp md letter h
    cases input with
    | none => simp [Publish, outcomeLetter] at h
    | some v =>
      by_cases hv : ex = "" ∧ rk = ""
      · simp [Publish, hv, outcomeLetter] at h
      · simp only [Publish, if_neg hv] at h
        split at h
        · simp [outcomeLetter] at h
        · simp only [outcomeLetter, Option.some.injEq] at h
          subst h
          exact ⟨rfl, rfl, rfl, rfl⟩
  · intro rs' input ex rk wp md letter h
    cases input with
    | none => simp [PublishWithConfirmation, outcomeLetter] at h
    | some v =>
      by_cases hv : ex = "" ∧ rk = ""
      · simp [PublishWithConfirmation, hv, outcomeLetter] at h
      · simp only [PublishWithConfirmation, if_neg hv] at h
        split at h
        · simp [outcomeLetter] at h
        · simp only [outcomeLetter, Option.some.injEq] at h
          subst h
          exact ⟨rfl, rfl, rfl, rfl⟩

/-- Witness for C2: the scenario evaluated at a concrete state with the
counter at 5 and a concrete succeeding payload pipeline. -/
theorem publish_scenario_letter_and_envelope_witness :
    (Publish samplePayload sampleWrappedPayload sampleState (some 1) "orders" "new" false "").2 =
      PublishOutcome.published
        { LetterID := 5, Body := [1, 2],
          Envelope := { Exchange := "orders", RoutingKey := "new", ContentType := "application/json",
                        Mandatory := false, Immediate := false, DeliveryMode := 2 } } ∧
    (Publish samplePayload sampleWrappedPayload sampleState (some 1) "orders" "new" false "").1.letterCount = 6 :=
  ⟨(publish_scenario_letter_and_envelope samplePayload sampleWrappedPayload sampleState 1 [1, 2] rfl rfl).1,
   (publish_scenario_letter_and_envelope samplePayload sampleWrappedPayload sampleState 1 [1, 2] rfl rfl).2.1⟩

/-- C3: `Publish` and `PublishWithConfirmation` return a validation error
if and only if the input is absent (`none`), or the exchange name and the
routing key are both empty strings; with input present and at least one
of the two non-empty, no validation error is returned. -/
theorem publish_validation_error_iff {α : Type}
    (CreatePayload : α → CompressionConfig → EncryptionConfig → Except String (List Nat))
    (CreateWrappedPayload : α → Nat → String → CompressionConfig → EncryptionConfig → Except String (List Nat))
    (rs : RabbitServiceState) (input : Option α) (exchangeName routingKey : String)
    (wrapPayload : Bool) (metadata : String) :
    ((∃ m, (Publish CreatePayload CreateWrappedPayload rs input exchangeName routingKey wrapPayload metadata).2 =
        PublishOutcome.validationError m) ↔
      (input = none ∨ (exchangeName = "" ∧ routingKey = ""))) ∧
    ((∃ m, (PublishWithConfirmation CreatePayload CreateWrappedPayload rs input exchangeName routingKey wrapPayload metadata).2 =
        PublishOutcome.validationError m) ↔
      (input = none ∨ (exchangeName = "" ∧ routingKey = ""))) := by
  constructor
  · cases input with
    | none => simp [Publish]
    | some v =>
      by_cases hv : exchangeName = "" ∧ routingKey = ""
      · simp [Publish, hv]
      · simp only [Publish, if_neg hv]
        constructor
        · rintro ⟨m, hm⟩
          split at hm <;> simp_all
        · rintro (h | h) <;> simp_all
  · cases input with
    | none => simp [PublishWithConfirmation]
    | some v =>
      by_cases hv : exchangeName = "" ∧ routingKey = ""
      · simp [PublishWithConfirmation, hv]
      · simp only [PublishWithConfirmation, if_neg hv]
        constructor
        · rintro ⟨m, hm⟩
          split at hm <;> simp_all
        · rintro (h | h) <;> simp_all

/-- C4: under the default receipt policy, a failed receipt carrying a
recoverable Letter requeues exactly that Letter once and pushes exactly
one LetterID-tagged error to the central stream; a failed receipt with no
Letter requeues nothing and pushes exactly one distinctly-worded
LetterID-tagged error; a successful receipt pushes nothing and requeues
nothing; and the default loop hands nothing to any custom handler. -/
theorem default_receipt_policy (receipt : PublishReceipt) :
    (∀ failedLetter, receipt.Success = false → receipt.FailedLetter = some failedLetter →
      processReceipt receipt =
        (["failed to publish letter " ++ toString receipt.LetterID ++ "... retrying"],
         [failedLetter])) ∧
    (receipt.Success = false → receipt.FailedLetter = none →
      processReceipt receipt =
        (["failed to publish a letter " ++ toString receipt.LetterID ++ " and unable to retry as a copy of the letter was not received"],
         [])) ∧
    (receipt.Success = true → processReceipt receipt = ([], [])) ∧
    (∀ letterID : Nat,
      "failed to publish letter " ++ toString letterID ++ "... retrying" ≠
      "failed to publish a letter " ++ toString letterID ++ " and unable to retry as a copy of the letter was not received") ∧
    (∀ receipts : List PublishReceipt, (processPublishReceiptsDrain receipts).handled = []) := by
  refine ⟨?_, ?_, ?_, ?_, ?_⟩
  · intro failedLetter hs hf
    simp [processReceipt, hs, hf]
  · intro hs hf
    simp [processReceipt, hs, hf]
  · intro hs
    simp [processReceipt, hs]
  · intro letterID h
    have hl := congrArg String.length h
    simp only [String.length_append] at hl
    have h1 : ("failed to publish letter ").length = 25 := rfl
    have h2 : ("... retrying").length = 12 := rfl
    have h3 : ("failed to publish a letter ").length = 27 := rfl
    have h4 : (" and unable to retry as a copy of the letter was not received").length = 61 := rfl
    omega
  · intro receipts
    induction receipts with
    | nil => rfl
    | cons r rest ih => simp [processPublishReceiptsDrain, ih]

/-- C5: when a custom receipt handler is supplied at construction, the
orchestrator runs `invokeProcessPublishReceipts`, which passes every
drained receipt verbatim (and in order) to that handler and performs none
of the default retry/report logic: no central-stream error and no requeue
originate from the receipt loop. -/
theorem custom_handler_gets_all_receipts (receipts : List PublishReceipt) :
    dispatchReceiptLoop true receipts =
      { handled := receipts, centralErrors := [], requeued := [] } := by
  have h : ∀ rest : List PublishReceipt, invokeProcessPublishReceiptsDrain rest =
      { handled := rest, centralErrors := [], requeued := [] } := by
    intro rest
    induction rest with
    | nil => rfl
    | cons r rest ih => simp [invokeProcessPublishReceiptsDrain, ih]
  simp [dispatchReceiptLoop, h]

/-- C6: during construction the symmetric key is derived — exactly once,
via the KDF with the configured time cost, memory multiplier and thread
count and fixed length 32 — if and only if the encryption flag is enabled
and the passphrase and the salt are both non-empty; in every other case
no KDF call happens, the configuration is left untouched and
`encryptionConfigured` stays false. -/
theorem encryption_setup_characterization
    (GetHashWithArgon : String → String → Nat → Nat → Nat → Nat → List Nat)
    (config : RabbitSeasoning) (passphrase salt : String) :
    ((config.EncryptionConfig.Enabled = true ∧ passphrase ≠ "" ∧ salt ≠ "") →
      setupEncryption GetHashWithArgon config passphrase salt =
        ({ config with EncryptionConfig := { config.EncryptionConfig with Hashkey :=
             (GetHashWithArgon passphrase salt config.EncryptionConfig.TimeConsideration
               config.EncryptionConfig.MemoryMultiplier config.EncryptionConfig.Threads 32) } },
         true,
         [{ passphrase := passphrase, salt := salt,
            timeConsideration := config.EncryptionConfig.TimeConsideration,
            memoryMultiplier := config.EncryptionConfig.MemoryMultiplier,
            threads := config.EncryptionConfig.Threads, keyLength := 32 }])) ∧
    (¬(config.EncryptionConfig.Enabled = true ∧ passphrase ≠ "" ∧ salt ≠ "") →
      setupEncryption GetHashWithArgon config passphrase salt = (config, false, [])) := by
  have hiff : (config.EncryptionConfig.Enabled = true ∧ passphrase.length > 0 ∧ salt.length > 0) ↔
      (config.EncryptionConfig.Enabled = true ∧ passphrase ≠ "" ∧ salt ≠ "") := by
    simp [length_pos_iff_ne_empty]
  constructor
  · intro h
    simp only [setupEncryption]
    split
    · rfl
    · next hc => exact absurd (hiff.mpr h) hc
  · intro h
    simp only [setupEncryption]
    split
    · next hc => exact absurd (hiff.mp hc) h
    · rfl

/-- C7: `Shutdown` performs, in order: stop the auto-publish loop, sleep
1 s, send the shutdown signal, sleep 1 s, then (when `stopConsumers` is
true) one `StopConsuming(true, true)` call per registered consumer — a
failing stop pushes its error to the central stream and the remaining
consumers are still stopped — and finally the Connection Pool shutdown as
the last step. -/
theorem shutdown_order_and_consumer_stops (consumers : List ModelConsumer) (stopConsumers : Bool) :
    (Shutdown consumers stopConsumers).take 4 =
      [ShutdownEvent.stopAutoPublish, ShutdownEvent.sleepSeconds 1,
       ShutdownEvent.sendShutdownSignal, ShutdownEvent.sleepSeconds 1] ∧
    (Shutdown consumers stopConsumers).getLast? = some ShutdownEvent.connectionPoolShutdown ∧
    ((Shutdown consumers true).filter isStopConsumingEvent =
      consumers.map (fun c => ShutdownEvent.stopConsuming c.name true true)) ∧
    ((Shutdown consumers false).filter isStopConsumingEvent = []) ∧
    (∀ c ∈ consumers, ∀ e, c.stopResult = some e →
      ShutdownEvent.pushCentralErr e ∈ Shutdown consumers true) := by
  have hfilter : ∀ cs : List ModelConsumer,
      (cs.flatMap stopConsumerEvents).filter isStopConsumingEvent =
        cs.map (fun c => ShutdownEvent.stopConsuming c.name true true) := by
    intro cs
    induction cs with
    | nil => rfl
    | cons c rest ih =>
      cases hc : c.stopResult <;>
        simp [stopConsumerEvents, hc, ih, isStopConsumingEvent]
  refine ⟨rfl, ?_, ?_, ?_, ?_⟩
  · simp only [Shutdown]
    rw [List.getLast?_concat]
  · simp [Shutdown, List.filter_append, hfilter, isStopConsumingEvent]
  · simp [Shutdown, List.filter_append, isStopConsumingEvent]
  · intro c hc e he
    have hmem : ShutdownEvent.pushCentralErr e ∈ stopConsumerEvents c := by
      simp [stopConsumerEvents, he]
    have h1 : ShutdownEvent.pushCentralErr e ∈ consumers.flatMap stopConsumerEvents :=
      List.mem_flatMap.mpr ⟨c, hc, hmem⟩
    have h2 : (if true = true then consumers.flatMap stopConsumerEvents else []) =
        consumers.flatMap stopConsumerEvents := if_pos rfl
    simp only [Shutdown, h2, List.mem_append]
    exact Or.inl (Or.inr h1)

/-- C8: when validation passes (input present, not both routing fields
empty) and the payload pipeline fails, both `Publish` and
`PublishWithConfirmation` return that pipeline error synchronously as the
call's result and hand no Letter to the Publisher. -/
theorem publish_pipeline_failure_synchronous {α : Type}
    (CreatePayload : α → CompressionConfig → EncryptionConfig → Except String (List Nat))
    (CreateWrappedPayload : α → Nat → String → CompressionConfig → EncryptionConfig → Except String (List Nat))
    (rs : RabbitServiceState) (value : α) (exchangeName routingKey : String)
    (wrapPayload : Bool) (metadata : String) (e : String)
    (hval : ¬(exchangeName = "" ∧ routingKey = ""))
    (hpipe : (if wrapPayload then
        CreateWrappedPayload value rs.letterCount metadata rs.Config.CompressionConfig rs.Config.EncryptionConfig
      else
        CreatePayload value rs.Config.CompressionConfig rs.Config.EncryptionConfig) = Except.error e) :
    (Publish CreatePayload CreateWrappedPayload rs (some value) exchangeName routingKey wrapPayload metadata).2 =
      PublishOutcome.pipelineError e ∧
    outcomeLetter (Publish CreatePayload CreateWrappedPayload rs (some value) exchangeName routingKey wrapPayload metadata).2 = none ∧
    (PublishWithConfirmation CreatePayload CreateWrappedPayload rs (some value) exchangeName routingKey wrapPayload metadata).2 =
      PublishOutcome.pipelineError e ∧
    outcomeLetter (PublishWithConfirmation CreatePayload CreateWrappedPayload rs (some value) exchangeName routingKey wrapPayload metadata).2 = none := by
  have h1 : (Publish CreatePayload CreateWrappedPayload rs (some value) exchangeName routingKey wrapPayload metadata).2 =
      PublishOutcome.pipelineError e := by
    simp only [Publish, if_neg hval, hpipe]
  have h2 : (PublishWithConfirmation CreatePayload CreateWrappedPayload rs (some value) exchangeName routingKey wrapPayload metadata).2 =
      PublishOutcome.pipelineError e := by
    simp only [PublishWithConfirmation, if_neg hval, hpipe]
  exact ⟨h1, by rw [h1]; rfl, h2, by rw [h2]; rfl⟩

/-- Witness for C8: a concrete pipeline failure surfaces as the call's
synchronous result. -/
theorem publish_pipeline_failure_synchronous_witness :
    (Publish samplePayload sampleWrappedPayload sampleState (some 0) "orders" "new" false "").2 =
      PublishOutcome.pipelineError "serialization failed" ∧
    outcomeLetter (Publish samplePayload sampleWrappedPayload sampleState (some 0) "orders" "new" false "").2 = none ∧
    (PublishWithConfirmation samplePayload sampleWrappedPayload sampleState (some 0) "orders" "new" false "").2 =
      PublishOutcome.pipelineError "serialization failed" ∧
    outcomeLetter (PublishWithConfirmation samplePayload sampleWrappedPayload sampleState (some 0) "orders" "new" false "").2 = none :=
  publish_pipeline_failure_synchronous samplePayload sampleWrappedPayload sampleState 0
    "orders" "new" false "" "serialization failed" (by simp) rfl

/-- C9: `Acknowledge`, `Nack` and `Reject` return an error without
contacting the origin channel exactly when the message is not ackable or
the origin-channel reference is absent; otherwise every invocation —
first or repeated, the operations read only the message's fields and
record nothing — forwards the call with the message's delivery tag to the
origin channel, so repeated invocation is not locally detected or
rejected. -/
theorem ack_nack_reject_local_guards (msg : ReceivedMessage) (requeue : Bool) :
    ((∃ m, Acknowledge msg = AckResult.localError m) ↔ (msg.IsAckable = false ∨ msg.amqpChan = none)) ∧
    ((∃ m, Nack msg requeue = AckResult.localError m) ↔ (msg.IsAckable = false ∨ msg.amqpChan = none)) ∧
    ((∃ m, Reject msg requeue = AckResult.localError m) ↔ (msg.IsAckable = false ∨ msg.amqpChan = none)) ∧
    (∀ chan, msg.IsAckable = true → msg.amqpChan = some chan →
      Acknowledge msg = AckResult.forwarded (ChannelCall.ack chan msg.deliveryTag false) ∧
      Nack msg requeue = AckResult.forwarded (ChannelCall.nack chan msg.deliveryTag false requeue) ∧
      Reject msg requeue = AckResult.forwarded (ChannelCall.reject chan msg.deliveryTag requeue)) := by
  refine ⟨?_, ?_, ?_, ?_⟩
  · cases hA : msg.IsAckable <;> cases hC : msg.amqpChan <;> simp [Acknowledge, hA, hC]
  · cases hA : msg.IsAckable <;> cases hC : msg.amqpChan <;> simp [Nack, hA, hC]
  · cases hA : msg.IsAckable <;> cases hC : msg.amqpChan <;> simp [Reject, hA, hC]
  · intro chan hA hC
    simp [Acknowledge, Nack, Reject, hA, hC]

/-- C10: a publish call that passes validation but fails in the payload
pipeline still advances the letter counter by one (below the `uint64`
wrap), and the LetterID it consumed is never assigned to any Letter
published by the rest of the sequential run — the failed call leaves a
permanent gap. -/
theorem failed_publish_call_leaves_gap {α : Type}
    (CreatePayload : α → CompressionConfig → EncryptionConfig → Except String (List Nat))
    (CreateWrappedPayload : α → Nat → String → CompressionConfig → EncryptionConfig → Except String (List Nat))
    (rs : RabbitServiceState) (call : PublishCall α) (rest : List (PublishCall α)) (e : String)
    (hmod : rs.letterCount + rest.length + 1 < UINT64_MOD)
    (hfail : (publishStep CreatePayload CreateWrappedPayload rs call).2 = PublishOutcome.pipelineError e) :
    (publishStep CreatePayload CreateWrappedPayload rs call).1.letterCount = rs.letterCount + 1 ∧
    ∀ o ∈ (publishRun CreatePayload CreateWrappedPayload (publishStep CreatePayload CreateWrappedPayload rs call).1 rest).2,
      ∀ letter, outcomeLetter o = some letter → letter.LetterID ≠ rs.letterCount := by
  rcases publishStep_cases CreatePayload CreateWrappedPayload rs call with ⟨_, m, h2⟩ | ⟨h1, _, _⟩
  · rw [hfail] at h2
    cases h2
  · have hmodeq : (rs.letterCount + 1) % UINT64_MOD = rs.letterCount + 1 :=
      Nat.mod_eq_of_lt (by omega)
    constructor
    · rw [h1]
      exact hmodeq
    · intro o ho letter hl
      have hge := publishRun_letterID_ge CreatePayload CreateWrappedPayload rest
        (publishStep CreatePayload CreateWrappedPayload rs call).1
        (by rw [h1]; simp only [hmodeq]; omega) o ho letter hl
      rw [h1] at hge
      simp only [hmodeq] at hge
      omega

/-- Witness for C10: a concrete failed call from counter 5 consumes
LetterID 5, and the following successful call publishes with LetterID 6,
never 5. -/
theorem failed_publish_call_leaves_gap_witness :
    (publishStep samplePayload sampleWrappedPayload sampleState sampleFailCall).1.letterCount = 6 ∧
    ∀ o ∈ (publishRun samplePayload sampleWrappedPayload
        (publishStep samplePayload sampleWrappedPayload sampleState sampleFailCall).1 sampleRest).2,
      ∀ letter, outcomeLetter o = some letter → letter.LetterID ≠ 5 :=
  failed_publish_call_leaves_gap samplePayload sampleWrappedPayload sampleState
    sampleFailCall sampleRest "serialization failed" (by decide) rfl
